import Mathlib

set_option linter.unreachableTactic false
set_option linter.unusedTactic false

/-!
Verification of `pynetro` (`src/pynetro/client.py`), an HTTP-agnostic async
client for the Netro Public API v1.  We shallowly embed the parts of the
client that the specification claims are about:

* the JSON values moved between the client and the transport (`JVal`),
* the response handler `NetroClient._handle` (`handle` / `handleEnvelope`),
* the query/body builders of the endpoint methods
  (`get_schedules`, `get_moistures`, `get_events`, `get_sensor_data`,
   `set_status`, `water`, `stop_water`, `no_water`, `set_moisture`),
* the constructor validation of `NetroClient.__init__`.

Python dicts are embedded as insertion-ordered association lists (all dict
literals in the client use pairwise-distinct keys).  Python exceptions
become constructors of `HandleResult`; Python-level type errors
(`AttributeError` / `TypeError` raised by attribute access or iteration on
a value of the wrong shape) are modelled by the `pyError` constructor.
-/

/-- JSON values as produced by `resp.json()`.  The client only ever
inspects strings, lists and objects; numbers in the claims are integers,
so the number constructor carries `Int`. -/
inductive JVal where
  | null
  | bool (b : Bool)
  | int (n : Int)
  | str (s : String)
  | arr (xs : List JVal)
  | obj (fields : List (String × JVal))

/-- Python truthiness of a JSON-decoded value (`if status:` etc.). -/
def truthy : JVal → Bool
  | .null => false
  | .bool b => b
  | .int n => n != 0
  | .str s => !(s == "")
  | .arr xs => !xs.isEmpty
  | .obj fs => !fs.isEmpty

/-- Python `d.get(k)` on a dict embedded as an association list: the first
binding of `k` wins; an absent key yields Python `None`, i.e. `JVal.null`
(JSON `null` also decodes to `None`, so the merge is faithful). -/
def dget (fs : List (String × JVal)) (k : String) : JVal :=
  (List.lookup k fs).getD .null

/-- Whether a JSON value equals the Python string `"OK"` (Python `==`
between a JSON-decoded value and a string literal is true exactly when the
value is that string). -/
def isStrOK : JVal → Bool
  | .str s => s == "OK"
  | _ => false

mutual
/-- Python `repr` of a JSON-decoded value (escaping of quotes and
backslashes inside strings is not modelled; no claim exercises it). -/
def pyRepr : JVal → String
  | .null => "None"
  | .bool b => cond b "True" "False"
  | .int n => toString n
  | .str s => "'" ++ s ++ "'"
  | .arr xs => "[" ++ String.intercalate ", " (pyReprList xs) ++ "]"
  | .obj fs => "\x7b" ++ String.intercalate ", " (pyReprFields fs) ++ "\x7d"

/-- Helper of `pyRepr` for the members of a list. -/
def pyReprList : List JVal → List String
  | [] => []
  | x :: t => pyRepr x :: pyReprList t

/-- Helper of `pyRepr` for the items of a dict. -/
def pyReprFields : List (String × JVal) → List String
  | [] => []
  | (k, v) :: t => ("'" ++ k ++ "': " ++ pyRepr v) :: pyReprFields t
end

/-- Python `str` of a JSON-decoded value, as used by an f-string:
a string renders as itself, everything else as its `repr`. -/
def pyStr : JVal → String
  | .str s => s
  | v => pyRepr v

/-- Lowercase an ASCII character, as Python `str.lower` does on the ASCII
range (every string a claim exercises is ASCII). -/
def asciiLower (c : Char) : Char :=
  if 'A' ≤ c ∧ c ≤ 'Z' then Char.ofNat (c.toNat + 32) else c

/-- Python `str.lower` on ASCII strings. -/
def strLower (s : String) : String :=
  String.mk (s.toList.map asciiLower)

/-- Whether `pat` occurs as a contiguous run inside `s`
(Python `pat in s` for strings). -/
def listContainsSub (pat : List Char) : List Char → Bool
  | [] => pat.isEmpty
  | c :: rest => List.isPrefixOf pat (c :: rest) || listContainsSub pat rest

/-- Python substring test `pat in s`. -/
def strContainsSub (s pat : String) : Bool :=
  listContainsSub pat.toList s.toList

/-- Outcome of `NetroClient._handle` on one response.  `ok` is the returned
envelope; `authError` is `NetroAuthError`, `apiError` is `NetroError`,
`httpError` is the transport's own HTTP error propagated un-wrapped by
`resp.raise_for_status()`, and `pyError` is a Python-level exception
(`AttributeError` / `TypeError`) escaping from the message-building code. -/
inductive HandleResult where
  | ok (envelope : JVal)
  | authError (msg : String)
  | apiError (msg : String)
  | httpError (msg : String)
  | pyError (msg : String)

/-- One element of the generator
`f"\x7be.get('code')\x7d: \x7be.get('message')\x7d" for e in errs` of
`client.py` line 65: on a dict it renders the two fields through `str`
(an absent field prints as `None`); on anything else Python raises
`AttributeError` because the element has no `.get`. -/
def elemMsg : JVal → Except String String
  | .obj fs => .ok (pyStr (dget fs "code") ++ ": " ++ pyStr (dget fs "message"))
  | _ => .error "AttributeError"

/-- Consumption of the generator of `client.py` line 65 when `errs` is a
list: each element contributes its `"<code>: <message>"` string, and the
first non-dict element aborts the whole join with `AttributeError`. -/
def errParts : List JVal → Except String (List String)
  | [] => .ok []
  | e :: t =>
    match elemMsg e with
    | .error em => .error em
    | .ok m => (errParts t).map (fun r => m :: r)

/-- The join `"; ".join(... for e in errs if isinstance(errs, list))` of
`client.py` line 65, for every possible shape of `errs`:

* a list iterates its elements with the filter true (raising
  `AttributeError` at the first non-dict element);
* a string or a dict is iterable but fails the `isinstance(errs, list)`
  filter, so the join yields the empty string;
* `None`, a bool or a number is not iterable: Python raises `TypeError`. -/
def joinErrMsgs : JVal → Except String String
  | .arr es => (errParts es).map (String.intercalate "; ")
  | .str _ => .ok ""
  | .obj _ => .ok ""
  | _ => .error "TypeError"

/-- The value of `errs` after
`errs = data.get("errors") or []` (`client.py` line 64): a falsy
`errors` field (absent, `None`, `0`, `""`, `[]`, ...) is replaced by the
empty list. -/
def errsValue (fs : List (String × JVal)) : JVal :=
  let e := dget fs "errors"
  if truthy e then e else .arr []

/-- The message of `client.py` line 65:
`msg = "; ".join(...) or "API ERROR"`. -/
def buildMsg (fs : List (String × JVal)) : Except String String :=
  (joinErrMsgs (errsValue fs)).map (fun j => if j = "" then "API ERROR" else j)

/-- Envelope processing of `NetroClient._handle` (`client.py` lines 59-70),
after the HTTP status checks: read `data.get("status")` (an
`AttributeError` if the body is not a dict), and when the status is truthy
and not `"OK"` build the message and classify it, else return the envelope
unchanged. -/
def handleEnvelope : JVal → HandleResult
  | .obj fs =>
    let status := dget fs "status"
    if truthy status && !(isStrOK status) then
      match buildMsg fs with
      | .error em => .pyError em
      | .ok msg =>
        if strContainsSub (strLower msg) "auth" || strContainsSub (strLower msg) "invalid key" then
          .authError msg
        else
          .apiError msg
    else
      .ok (.obj fs)
  | _ => .pyError "AttributeError"

/-- An HTTP response as seen by `_handle`: the status code, the behaviour
of the transport's `raise_for_status()` (`some m` when it raises an HTTP
error with message `m`, `none` when it does not), and the JSON body that
`resp.json()` would return. -/
structure AsyncHTTPResponse where
  status : Nat
  raiseError : Option String
  body : JVal

/-- `NetroClient._handle` (`client.py` lines 50-70).  On 401/403 the
transport check is invoked first and its message wrapped into
`NetroAuthError`, with a fixed literal when it does not raise; otherwise
`raise_for_status()` propagates its error un-wrapped, and on success the
body goes through the envelope processing.  Every endpoint method of the
client returns `await self._handle(r)` on its response, so this function
is the response behaviour of every adapter method. -/
def handle (r : AsyncHTTPResponse) : HandleResult :=
  if r.status = 401 ∨ r.status = 403 then
    match r.raiseError with
    | some m => .authError m
    | none => .authError "Authentication failed"
  else
    match r.raiseError with
    | some m => .httpError m
    | none => handleEnvelope r.body

example : handleEnvelope (.obj [("status", .str "ERROR"),
    ("errors", .arr [.obj [("code", .str "E1"), ("message", .str "Invalid key")]])])
    = .authError "E1: Invalid key" := rfl

/-! ### Request builders of the endpoint methods -/

/-- `json.dumps(list(zones))` with the default separators: the compact
JSON array text with `", "` between elements, e.g. `"[1, 2]"`. -/
def jsonDumpsIntList (zs : List Int) : String :=
  "[" ++ String.intercalate ", " (zs.map toString) ++ "]"

/-- A query/body entry added under Python string truthiness,
`if start_date: params["start_date"] = start_date`: an omitted argument
and an empty string both add nothing. -/
def optTruthyStr (k : String) : Option String → List (String × JVal)
  | some s => if s = "" then [] else [(k, .str s)]
  | none => []

/-- The GET query built by `NetroClient.get_schedules` (`client.py`
lines 89-96): `key` always, `start_date`/`end_date` under truthiness, and
`zones` JSON-serialised into a string whenever the argument is not
`None` (an empty list included). -/
def get_schedules_params (key : String) (start_date end_date : Option String)
    (zones : Option (List Int)) : List (String × JVal) :=
  [("key", .str key)]
    ++ optTruthyStr "start_date" start_date
    ++ optTruthyStr "end_date" end_date
    ++ (match zones with
        | some zs => [("zones", .str (jsonDumpsIntList zs))]
        | none => [])

/-- The GET query built by `NetroClient.get_moistures` (`client.py`
lines 110-116); its construction is identical to `get_schedules`. -/
def get_moistures_params (key : String) (start_date end_date : Option String)
    (zones : Option (List Int)) : List (String × JVal) :=
  [("key", .str key)]
    ++ optTruthyStr "start_date" start_date
    ++ optTruthyStr "end_date" end_date
    ++ (match zones with
        | some zs => [("zones", .str (jsonDumpsIntList zs))]
        | none => [])

/-- The GET query built by `NetroClient.get_events` (`client.py`
lines 130-136): `event` is added under `is not None`, the dates under
truthiness. -/
def get_events_params (key : String) (event : Option Int)
    (start_date end_date : Option String) : List (String × JVal) :=
  [("key", .str key)]
    ++ (match event with
        | some e => [("event", .int e)]
        | none => [])
    ++ optTruthyStr "start_date" start_date
    ++ optTruthyStr "end_date" end_date

/-- The GET query built by `NetroClient.get_sensor_data` (`client.py`
lines 233-237). -/
def get_sensor_data_params (key : String)
    (start_date end_date : Option String) : List (String × JVal) :=
  [("key", .str key)]
    ++ optTruthyStr "start_date" start_date
    ++ optTruthyStr "end_date" end_date

/-- The POST body built by `NetroClient.set_status` (`client.py`
lines 143-145): `status` is `1`/`0` when `enabled` is not `None`,
otherwise absent. -/
def set_status_body (key : String) (enabled : Option Bool) :
    List (String × JVal) :=
  [("key", .str key)]
    ++ (match enabled with
        | some b => [("status", .int (if b then 1 else 0))]
        | none => [])

/-- The POST body built by `NetroClient.water` (`client.py`
lines 160-166): `key` and `duration` always; `zones` as a plain JSON
array, `delay` and `start_time` only when the argument is not `None`
(note: `start_time` uses identity, so even an empty string is sent). -/
def water_body (key : String) (duration_minutes : Int)
    (zones : Option (List Int)) (delay_minutes : Option Int)
    (start_time : Option String) : List (String × JVal) :=
  [("key", .str key), ("duration", .int duration_minutes)]
    ++ (match zones with
        | some zs => [("zones", .arr (zs.map .int))]
        | none => [])
    ++ (match delay_minutes with
        | some d => [("delay", .int d)]
        | none => [])
    ++ (match start_time with
        | some t => [("start_time", .str t)]
        | none => [])

/-- The POST body built by `NetroClient.stop_water` (`client.py`
line 173). -/
def stop_water_body (key : String) : List (String × JVal) :=
  [("key", .str key)]

/-- The POST body built by `NetroClient.no_water` (`client.py`
line 180). -/
def no_water_body (key : String) (days : Int) : List (String × JVal) :=
  [("key", .str key), ("days", .int days)]

/-- The POST body of a `no_water(key)` call in which the caller omits the
`days` argument: the Python signature `days: int = 1` (`client.py`
line 179) supplies the default, so the transmitted body still carries a
`days` key. -/
def no_water_body_omitted (key : String) : List (String × JVal) :=
  no_water_body key 1

/-- The key sequence of the POST body built by `NetroClient.report_weather`
(`client.py` lines 211-219).  The optional values `rain` and `temp` are
Python floats, outside the integer JSON value model, so only the key
structure is embedded; each boolean records whether the corresponding
argument `is not None`, the guard the source uses, and each key is
appended in the source's insertion order. -/
def report_weather_keys (hasCondition hasRain hasRainProb hasTemp : Bool) :
    List String :=
  ["key", "date"]
    ++ (if hasCondition then ["condition"] else [])
    ++ (if hasRain then ["rain"] else [])
    ++ (if hasRainProb then ["rain_prob"] else [])
    ++ (if hasTemp then ["temp"] else [])

/-- The POST body built by `NetroClient.set_moisture` (`client.py`
lines 193-195): `zones` as a plain JSON array when not `None`. -/
def set_moisture_body (key : String) (moisture : Int)
    (zones : Option (List Int)) : List (String × JVal) :=
  [("key", .str key), ("moisture", .int moisture)]
    ++ (match zones with
        | some zs => [("zones", .arr (zs.map .int))]
        | none => [])

/-! ### Constructor validation -/

/-- Python `s.rstrip("/")`: drop every trailing slash. -/
def rstripSlash (s : String) : String :=
  String.mk ((s.toList.reverse.dropWhile (fun c => c = '/')).reverse)

/-- `NetroClient.__init__` (`client.py` lines 30-36):
`base = (config.base_url or "").rstrip("/")` (for a string argument the
`or ""` is the identity) followed by `if not base: raise ValueError`.
The result is the stored `self._base` when construction succeeds, `none`
when the constructor raises. -/
def mkNetroClientBase (base_url : String) : Option String :=
  let base := rstripSlash base_url
  if base = "" then none else some base

/-- URL building of an endpoint method, e.g.
`url = f"\x7bself._base\x7d/info.json"` (`client.py` line 76): a plain
concatenation performed on every call with no validation. -/
def endpointUrl (base endpointFile : String) : String :=
  base ++ "/" ++ endpointFile

example : get_schedules_params "k" none none (some [1, 2])
    = [("key", .str "k"), ("zones", .str "[1, 2]")] := rfl

example : mkNetroClientBase "https://x/npa/v1//" = some "https://x/npa/v1" := rfl

example : mkNetroClientBase "///" = none := rfl

/-! ### Claims about the HTTP layer of `_handle` -/

/-- C4: for every response with HTTP status 401 or 403, `_handle` raises
`NetroAuthError` — carrying the transport error's message when
`raise_for_status()` raises, and the fixed literal `"Authentication
failed"` otherwise — and the result does not depend on the body, which is
never parsed. -/
theorem handle_auth_on_401_403 (r : AsyncHTTPResponse)
    (h : r.status = 401 ∨ r.status = 403) :
    handle r = .authError (r.raiseError.getD "Authentication failed")
      ∧ ∀ b, handle ⟨r.status, r.raiseError, b⟩ = handle r := by
  constructor
  · cases hr : r.raiseError <;> simp [handle, h, hr]
  · intro b
    simp [handle, h]

/-- Witness for `handle_auth_on_401_403` at a concrete 401 response. -/
theorem handle_auth_on_401_403_witness :
    handle ⟨401, none, .null⟩
        = .authError ((none : Option String).getD "Authentication failed")
      ∧ ∀ b, handle ⟨401, none, b⟩ = handle ⟨401, none, .null⟩ :=
  handle_auth_on_401_403 ⟨401, none, .null⟩ (Or.inl rfl)

/-- C9: for every response whose HTTP status is neither 401 nor 403, an
error raised by the transport's `raise_for_status()` propagates to the
caller as-is (the `httpError` outcome), and is never re-classified as
either of the library's two error kinds. -/
theorem handle_http_error_propagates (r : AsyncHTTPResponse)
    (h1 : r.status ≠ 401) (h2 : r.status ≠ 403)
    (m : String) (hm : r.raiseError = some m) :
    handle r = .httpError m
      ∧ (∀ s, handle r ≠ .authError s)
      ∧ (∀ s, handle r ≠ .apiError s) := by
  have hne : ¬(r.status = 401 ∨ r.status = 403) := by
    rintro (h | h)
    · exact h1 h
    · exact h2 h
  refine ⟨?_, ?_, ?_⟩ <;> simp [handle, hne, hm]

/-- Witness for `handle_http_error_propagates` at a concrete 500
response. -/
theorem handle_http_error_propagates_witness :
    handle ⟨500, some "Internal Server Error", .null⟩
        = .httpError "Internal Server Error"
      ∧ (∀ s, handle ⟨500, some "Internal Server Error", .null⟩ ≠ .authError s)
      ∧ (∀ s, handle ⟨500, some "Internal Server Error", .null⟩ ≠ .apiError s) :=
  handle_http_error_propagates ⟨500, some "Internal Server Error", .null⟩
    (by decide) (by decide) "Internal Server Error" rfl

/-- C5: for every successful response (no HTTP error) whose envelope
either has `status` equal to `"OK"` or has no `status` field at all,
`_handle` returns the full envelope mapping unchanged — the very same
association list, so `data`, `meta` and every other field are intact. -/
theorem handle_returns_envelope_on_ok (r : AsyncHTTPResponse)
    (fs : List (String × JVal))
    (h1 : r.status ≠ 401) (h2 : r.status ≠ 403)
    (h3 : r.raiseError = none) (hb : r.body = .obj fs)
    (hst : List.lookup "status" fs = none
         ∨ List.lookup "status" fs = some (.str "OK")) :
    handle r = .ok (.obj fs) := by
  have hne : ¬(r.status = 401 ∨ r.status = 403) := by
    rintro (h | h)
    · exact h1 h
    · exact h2 h
  have hred : handle r = handleEnvelope (.obj fs) := by
    simp [handle, hne, h3, hb]
  rw [hred]
  rcases hst with hst | hst <;>
    simp [handleEnvelope, dget, hst, truthy, isStrOK]

/-- Witness for `handle_returns_envelope_on_ok`: an OK envelope carrying
`data` and `meta` comes back whole. -/
theorem handle_returns_envelope_on_ok_witness :
    handle ⟨200, none, .obj [("status", .str "OK"),
        ("data", .obj [("device", .obj [])]),
        ("meta", .obj [("time", .str "2024-01-01T00:00:00")])]⟩
      = .ok (.obj [("status", .str "OK"),
        ("data", .obj [("device", .obj [])]),
        ("meta", .obj [("time", .str "2024-01-01T00:00:00")])]) :=
  handle_returns_envelope_on_ok _ _ (by decide) (by decide) rfl rfl
    (Or.inr rfl)

/-! ### Claims about the non-OK envelope path -/

/-- C1 as frozen is refuted at two inputs.  First, a `status` field that
is present but falsy — the empty string — is not equal to `"OK"`, yet the
envelope is returned to the caller, because line 62 tests
`if status and status != "OK"`.  Second, with `status` `"ERROR"` but
`errors` a list holding a non-mapping, the message builder of line 65
raises `AttributeError`, which is neither of the two library error
kinds. -/
theorem handle_nonok_counterexample :
    (List.lookup "status" [("status", JVal.str "")] = some (.str "")
      ∧ handle ⟨200, none, .obj [("status", JVal.str "")]⟩
          = .ok (.obj [("status", JVal.str "")]))
    ∧ handle ⟨200, none, .obj [("status", JVal.str "ERROR"),
          ("errors", .arr [.str "boom"])]⟩
        = .pyError "AttributeError" :=
  ⟨⟨rfl, rfl⟩, rfl⟩

/-- C1 amended: for every successful response whose envelope carries a
truthy `status` different from `"OK"`, `_handle` never returns the
envelope; and whenever the message building does not itself raise (its
join succeeds), the outcome is one of the two library error kinds. -/
theorem handle_nonok_never_returns (r : AsyncHTTPResponse)
    (fs : List (String × JVal))
    (h1 : r.status ≠ 401) (h2 : r.status ≠ 403)
    (h3 : r.raiseError = none) (hb : r.body = .obj fs)
    (ht : truthy (dget fs "status") = true)
    (hok : isStrOK (dget fs "status") = false) :
    (∀ env, handle r ≠ .ok env)
      ∧ ((buildMsg fs).isOk = true
          → ∃ m, handle r = .authError m ∨ handle r = .apiError m) := by
  have hne : ¬(r.status = 401 ∨ r.status = 403) := by
    rintro (h | h)
    · exact h1 h
    · exact h2 h
  have hred : handle r = handleEnvelope (.obj fs) := by
    simp [handle, hne, h3, hb]
  rw [hred]
  cases hbm : buildMsg fs with
  | error em =>
    refine ⟨?_, ?_⟩
    · intro env
      simp [handleEnvelope, ht, hok, hbm]
    · intro hisok
      simp [Except.isOk, Except.toBool] at hisok
  | ok m =>
    refine ⟨?_, ?_⟩
    · intro env
      simp only [handleEnvelope, ht, hok, hbm, Bool.and_self,
        Bool.not_false, if_true]
      split <;> simp
    · intro _
      refine ⟨m, ?_⟩
      simp only [handleEnvelope, ht, hok, hbm, Bool.and_self,
        Bool.not_false, if_true]
      split
      · exact Or.inl rfl
      · exact Or.inr rfl

/-- Witness for `handle_nonok_never_returns` at the envelope
with `status` `"ERROR"` and no `errors` field. -/
theorem handle_nonok_never_returns_witness :
    (∀ env, handle ⟨200, none, .obj [("status", .str "ERROR")]⟩ ≠ .ok env)
      ∧ ((buildMsg [("status", JVal.str "ERROR")]).isOk = true
          → ∃ m, handle ⟨200, none, .obj [("status", .str "ERROR")]⟩
                  = .authError m
              ∨ handle ⟨200, none, .obj [("status", .str "ERROR")]⟩
                  = .apiError m) :=
  handle_nonok_never_returns ⟨200, none, .obj [("status", .str "ERROR")]⟩
    [("status", JVal.str "ERROR")] (by decide) (by decide) rfl rfl rfl rfl

/-- A list containing a non-dict element makes the generator of
`client.py` line 65 raise before the join completes. -/
theorem errParts_error_of_bad_elem (es : List JVal) (e : JVal)
    (hmem : e ∈ es) (hbad : ∀ g, e ≠ .obj g) :
    ∃ em, errParts es = .error em := by
  induction es with
  | nil => cases hmem
  | cons a t ih =>
    rcases List.mem_cons.mp hmem with rfl | hmem
    · cases e with
      | obj g => exact absurd rfl (hbad g)
      | null => exact ⟨"AttributeError", rfl⟩
      | bool b => exact ⟨"AttributeError", rfl⟩
      | int n => exact ⟨"AttributeError", rfl⟩
      | str s => exact ⟨"AttributeError", rfl⟩
      | arr xs => exact ⟨"AttributeError", rfl⟩
    · obtain ⟨em, hem⟩ := ih hmem
      cases ha : elemMsg a with
      | error em2 => exact ⟨em2, by simp [errParts, ha]⟩
      | ok m => exact ⟨em, by simp [errParts, ha, hem, Except.map]⟩

/-- C2 as frozen is refuted: with `errors` equal to the list `["boom"]` —
a sequence, but not of mappings — the claim demands the literal message
`"API ERROR"`, yet the code raises `AttributeError` from
`e.get("code")` on a string, so no library error carrying any message is
produced. -/
theorem handle_msg_counterexample :
    handleEnvelope (.obj [("status", .str "ERROR"),
        ("errors", .arr [.str "boom"])])
      = .pyError "AttributeError"
    ∧ handleEnvelope (.obj [("status", .str "ERROR"),
        ("errors", .arr [.str "boom"])])
      ≠ .apiError "API ERROR"
    ∧ handleEnvelope (.obj [("status", .str "ERROR"),
        ("errors", .arr [.str "boom"])])
      ≠ .authError "API ERROR" := by
  have h1 : handleEnvelope (.obj [("status", .str "ERROR"),
      ("errors", .arr [.str "boom"])]) = .pyError "AttributeError" := rfl
  refine ⟨h1, ?_, ?_⟩ <;>
    · rw [h1]
      intro h
      exact HandleResult.noConfusion h

/-- C2 amended: on a non-OK envelope the message is the `"; "`-join of
the `"<code>: <message>"` renderings of the elements of `errors` when
`errors` is a list of mappings, with the literal `"API ERROR"` replacing
an empty join; the message is `"API ERROR"` when `errors` is absent
(or `null`), falsy, or a truthy non-list iterable (a string or a
mapping); but a truthy `errors` list containing a non-mapping element
raises a Python `AttributeError` instead of producing a message. -/
theorem handle_msg_construction :
    (∀ g, elemMsg (.obj g)
        = .ok (pyStr (dget g "code") ++ ": " ++ pyStr (dget g "message")))
  ∧ (∀ fs es parts, dget fs "errors" = .arr es
      → errParts es = .ok parts
      → buildMsg fs
          = .ok (if String.intercalate "; " parts = "" then "API ERROR"
                 else String.intercalate "; " parts))
  ∧ (∀ fs, dget fs "errors" = .null → buildMsg fs = .ok "API ERROR")
  ∧ (∀ fs s, dget fs "errors" = .str s → buildMsg fs = .ok "API ERROR")
  ∧ (∀ fs g, dget fs "errors" = .obj g → buildMsg fs = .ok "API ERROR")
  ∧ (∀ fs es e, dget fs "errors" = .arr es → e ∈ es → (∀ g, e ≠ .obj g)
      → ∃ em, buildMsg fs = .error em) := by
  refine ⟨fun g => rfl, ?_, ?_, ?_, ?_, ?_⟩
  · intro fs es parts he hp
    by_cases hnil : es.isEmpty
    · rw [List.isEmpty_iff] at hnil
      subst hnil
      cases hp
      simp [buildMsg, errsValue, he, truthy, joinErrMsgs, errParts,
        Except.map]
    · have htr : truthy (.arr es) = true := by
        simp [truthy, hnil]
      simp [buildMsg, errsValue, he, htr, joinErrMsgs, hp, Except.map]
  · intro fs h
    simp [buildMsg, errsValue, h, truthy, joinErrMsgs, errParts, Except.map]
    intro h2
    exact absurd rfl h2
  · intro fs s h
    by_cases hs : s = ""
    · subst hs
      simp [buildMsg, errsValue, h, truthy, joinErrMsgs, errParts,
        Except.map]
      intro h2
      exact absurd rfl h2
    · have htr : truthy (.str s) = true := by
        simp [truthy, hs]
      simp [buildMsg, errsValue, h, htr, joinErrMsgs, Except.map]
  · intro fs g h
    by_cases hg : g.isEmpty
    · rw [List.isEmpty_iff] at hg
      subst hg
      simp [buildMsg, errsValue, h, truthy, joinErrMsgs, errParts,
        Except.map]
      intro h2
      exact absurd rfl h2
    · have htr : truthy (.obj g) = true := by
        simp [truthy, hg]
      simp [buildMsg, errsValue, h, htr, joinErrMsgs, Except.map]
  · intro fs es e he hmem hbad
    obtain ⟨em, hem⟩ := errParts_error_of_bad_elem es e hmem hbad
    have hnil : ¬es.isEmpty := by
      cases es with
      | nil => cases hmem
      | cons a t => simp
    have htr : truthy (.arr es) = true := by
      simp [truthy, hnil]
    exact ⟨em, by simp [buildMsg, errsValue, he, htr, joinErrMsgs, hem,
      Except.map]⟩

/-- Witness for `handle_msg_construction`: the join conjunct evaluated on
a two-element `errors` list, with an absent `message` field rendering as
`None`. -/
theorem handle_msg_construction_witness :
    buildMsg [("status", JVal.str "ERROR"),
        ("errors", .arr [.obj [("code", .str "E1"), ("message", .str "rain")],
                         .obj [("code", .int 7)]])]
      = .ok (if String.intercalate "; " ["E1: rain", "7: None"] = ""
             then "API ERROR"
             else String.intercalate "; " ["E1: rain", "7: None"]) :=
  handle_msg_construction.2.1 _ _ ["E1: rain", "7: None"] rfl rfl

/-- C3: on a non-OK envelope the built message alone determines the error
kind — `NetroAuthError` exactly when its lowercasing contains `"auth"` or
`"invalid key"`, `NetroError` otherwise, both carrying the message — and
on the envelope with `status` `"ERROR"` and
`errors = [\x7b"code": "E1", "message": "Invalid key"\x7d]` the result is
`NetroAuthError` with the message exactly `"E1: Invalid key"`. -/
theorem handle_msg_classification :
    (∀ fs m, truthy (dget fs "status") = true
      → isStrOK (dget fs "status") = false
      → buildMsg fs = .ok m
      → handleEnvelope (.obj fs)
          = if strContainsSub (strLower m) "auth"
              || strContainsSub (strLower m) "invalid key"
            then .authError m else .apiError m)
  ∧ handleEnvelope (.obj [("status", .str "ERROR"),
      ("errors", .arr [.obj [("code", .str "E1"),
                             ("message", .str "Invalid key")]])])
      = .authError "E1: Invalid key" := by
  refine ⟨?_, rfl⟩
  intro fs m ht hok hbm
  simp [handleEnvelope, ht, hok, hbm]

/-- Witness for `handle_msg_classification`, instantiating the
classification conjunct on the spec's scenario envelope. -/
theorem handle_msg_classification_witness :
    handleEnvelope (.obj [("status", .str "ERROR"),
        ("errors", .arr [.obj [("code", .str "E1"),
                               ("message", .str "Invalid key")]])])
      = if strContainsSub (strLower "E1: Invalid key") "auth"
          || strContainsSub (strLower "E1: Invalid key") "invalid key"
        then .authError "E1: Invalid key" else .apiError "E1: Invalid key" :=
  handle_msg_classification.1 _ "E1: Invalid key" rfl rfl rfl

/-! ### Claims about the request builders -/

/-- C6 as frozen is refuted by `no_water`: its `days` parameter is
optional with default 1 (`days: int = 1`, `client.py` line 179, and the
spec's own endpoint table says `days (int, default 1)`), yet a call that
omits it still transmits a `days` key, because line 180 puts `days` in
the body unconditionally. -/
theorem no_water_days_counterexample :
    no_water_body_omitted "SN123"
        = [("key", .str "SN123"), ("days", .int 1)]
      ∧ ((no_water_body_omitted "SN123").map Prod.fst).contains "days"
        = true :=
  ⟨rfl, rfl⟩

/-- C6 amended: optional parameters omitted by the caller never appear
as keys in the transmitted query or body — for every optional of every
endpoint (`get_schedules`, `get_moistures`, `get_events`,
`get_sensor_data`, `set_status`, `water`, `set_moisture`,
`report_weather`; `get_info` and `stop_water` have none) — with the one
exception of `no_water`'s `days`, which defaults to 1 and is always
transmitted; and the spec's scenario
`water("SN123", duration_minutes=30, zones=[1,2], delay_minutes=5)`
produces exactly the body
`\x7b"key": "SN123", "duration": 30, "zones": [1, 2], "delay": 5\x7d`
with no `start_time` key. -/
theorem omitted_params_absent :
    (∀ k ed z,
       ((get_schedules_params k none ed z).map Prod.fst).contains
         "start_date" = false)
  ∧ (∀ k sd z,
       ((get_schedules_params k sd none z).map Prod.fst).contains
         "end_date" = false)
  ∧ (∀ k sd ed,
       ((get_schedules_params k sd ed none).map Prod.fst).contains "zones"
         = false)
  ∧ (∀ k ed z,
       ((get_moistures_params k none ed z).map Prod.fst).contains
         "start_date" = false)
  ∧ (∀ k sd z,
       ((get_moistures_params k sd none z).map Prod.fst).contains
         "end_date" = false)
  ∧ (∀ k sd ed,
       ((get_moistures_params k sd ed none).map Prod.fst).contains "zones"
         = false)
  ∧ (∀ k sd ed,
       ((get_events_params k none sd ed).map Prod.fst).contains "event"
         = false)
  ∧ (∀ k e ed,
       ((get_events_params k e none ed).map Prod.fst).contains
         "start_date" = false)
  ∧ (∀ k e sd,
       ((get_events_params k e sd none).map Prod.fst).contains "end_date"
         = false)
  ∧ (∀ k ed,
       ((get_sensor_data_params k none ed).map Prod.fst).contains
         "start_date" = false)
  ∧ (∀ k sd,
       ((get_sensor_data_params k sd none).map Prod.fst).contains
         "end_date" = false)
  ∧ (∀ k, set_status_body k none = [("key", .str k)])
  ∧ (∀ k d del st,
       ((water_body k d none del st).map Prod.fst).contains "zones" = false)
  ∧ (∀ k d z st,
       ((water_body k d z none st).map Prod.fst).contains "delay" = false)
  ∧ (∀ k d z del,
       ((water_body k d z del none).map Prod.fst).contains "start_time"
         = false)
  ∧ (∀ k m, set_moisture_body k m none
        = [("key", .str k), ("moisture", .int m)])
  ∧ (∀ r rp t,
       (report_weather_keys false r rp t).contains "condition" = false)
  ∧ (∀ c rp t,
       (report_weather_keys c false rp t).contains "rain" = false)
  ∧ (∀ c r t,
       (report_weather_keys c r false t).contains "rain_prob" = false)
  ∧ (∀ c r rp,
       (report_weather_keys c r rp false).contains "temp" = false)
  ∧ water_body "SN123" 30 (some [1, 2]) (some 5) none
      = [("key", .str "SN123"), ("duration", .int 30),
         ("zones", .arr [.int 1, .int 2]), ("delay", .int 5)] := by
  refine ⟨?_, ?_, ?_, ?_, ?_, ?_, ?_, ?_, ?_, ?_, ?_, fun k => rfl,
    ?_, ?_, ?_, fun k m => rfl, ?_, ?_, ?_, ?_, rfl⟩
  · intro k ed z
    cases ed <;> cases z <;>
      simp [get_schedules_params, optTruthyStr] <;>
      split_ifs <;> simp
  · intro k sd z
    cases sd <;> cases z <;>
      simp [get_schedules_params, optTruthyStr] <;>
      split_ifs <;> simp
  · intro k sd ed
    cases sd <;> cases ed <;>
      simp [get_schedules_params, optTruthyStr] <;>
      split_ifs <;> simp
  · intro k ed z
    cases ed <;> cases z <;>
      simp [get_moistures_params, optTruthyStr] <;>
      split_ifs <;> simp
  · intro k sd z
    cases sd <;> cases z <;>
      simp [get_moistures_params, optTruthyStr] <;>
      split_ifs <;> simp
  · intro k sd ed
    cases sd <;> cases ed <;>
      simp [get_moistures_params, optTruthyStr] <;>
      split_ifs <;> simp
  · intro k sd ed
    cases sd <;> cases ed <;>
      simp [get_events_params, optTruthyStr] <;>
      split_ifs <;> simp
  · intro k e ed
    cases e <;> cases ed <;>
      simp [get_events_params, optTruthyStr] <;>
      split_ifs <;> simp
  · intro k e sd
    cases e <;> cases sd <;>
      simp [get_events_params, optTruthyStr] <;>
      split_ifs <;> simp
  · intro k ed
    cases ed <;>
      simp [get_sensor_data_params, optTruthyStr] <;>
      split_ifs <;> simp
  · intro k sd
    cases sd <;>
      simp [get_sensor_data_params, optTruthyStr] <;>
      split_ifs <;> simp
  · intro k d del st
    cases del <;> cases st <;> simp [water_body]
  · intro k d z st
    cases z <;> cases st <;> simp [water_body]
  · intro k d z del
    cases z <;> cases del <;> simp [water_body]
  · intro r rp t
    cases r <;> cases rp <;> cases t <;> decide
  · intro c rp t
    cases c <;> cases rp <;> cases t <;> decide
  · intro c r t
    cases c <;> cases r <;> cases t <;> decide
  · intro c r rp
    cases c <;> cases r <;> cases rp <;> decide

/-- C7: a supplied zones list goes into a GET query as the JSON array
text produced by `json.dumps` (the string `"[1, 2]"` for `[1, 2]`), but
into a POST body as a plain JSON array value, not a string. -/
theorem zones_encoding :
    (∀ k zs, get_schedules_params k none none (some zs)
        = [("key", .str k), ("zones", .str (jsonDumpsIntList zs))])
  ∧ (∀ k zs, get_moistures_params k none none (some zs)
        = [("key", .str k), ("zones", .str (jsonDumpsIntList zs))])
  ∧ (∀ k d zs, water_body k d (some zs) none none
        = [("key", .str k), ("duration", .int d),
           ("zones", .arr (zs.map .int))])
  ∧ (∀ k m zs, set_moisture_body k m (some zs)
        = [("key", .str k), ("moisture", .int m),
           ("zones", .arr (zs.map .int))])
  ∧ jsonDumpsIntList [1, 2] = "[1, 2]" :=
  ⟨fun _ _ => rfl, fun _ _ => rfl, fun _ _ _ => rfl,
   fun _ _ _ => rfl, rfl⟩

/-- C10: for the GET endpoints taking dates, supplying the empty string
for `start_date` or `end_date` transmits exactly the same query as
omitting the argument (the key is dropped by the `if start_date:`
truthiness test), whereas `zones=[]` — an empty yet not-`None` list — is
still transmitted. -/
theorem empty_date_like_omitted :
    (∀ k z, get_schedules_params k (some "") (some "") z
        = get_schedules_params k none none z)
  ∧ (∀ k z, get_moistures_params k (some "") (some "") z
        = get_moistures_params k none none z)
  ∧ (∀ k e, get_events_params k e (some "") (some "")
        = get_events_params k e none none)
  ∧ (∀ k, get_sensor_data_params k (some "") (some "")
        = get_sensor_data_params k none none)
  ∧ (∀ k sd ed,
       ((get_schedules_params k sd ed (some [])).map Prod.fst).contains
         "zones" = true)
  ∧ (∀ k sd ed,
       ((get_moistures_params k sd ed (some [])).map Prod.fst).contains
         "zones" = true) := by
  refine ⟨fun k z => rfl, fun k z => rfl, fun k e => rfl, fun k => rfl,
    ?_, ?_⟩
  · intro k sd ed
    cases sd <;> cases ed <;>
      simp [get_schedules_params, optTruthyStr] <;>
      split_ifs <;> simp
  · intro k sd ed
    cases sd <;> cases ed <;>
      simp [get_moistures_params, optTruthyStr] <;>
      split_ifs <;> simp

/-! ### Claim about constructor validation -/

/-- The trimmed base URL is empty exactly when every character of the
configured base URL is a slash (the empty URL included). -/
theorem rstripSlash_eq_empty_iff (s : String) :
    rstripSlash s = "" ↔ ∀ c ∈ s.toList, c = '/' := by
  unfold rstripSlash
  rw [show ("" : String) = String.mk [] from rfl]
  constructor
  · intro h c hc
    have hdata : (s.toList.reverse.dropWhile (fun c => c = '/')).reverse
        = [] := congrArg String.data h
    rw [List.reverse_eq_nil_iff] at hdata
    have := List.dropWhile_eq_nil_iff.mp hdata c (List.mem_reverse.mpr hc)
    simpa using this
  · intro h
    have : s.toList.reverse.dropWhile (fun c => c = '/') = [] :=
      List.dropWhile_eq_nil_iff.mpr
        (fun c hc => by simpa using h c (List.mem_reverse.mp hc))
    rw [this]
    rfl

/-- C8: adapter construction succeeds exactly when the configured base
URL holds some non-slash character, i.e. is non-empty after
trailing-slash trimming; when it succeeds the stored base is the trimmed
URL, on which every per-call URL is built by plain concatenation with no
further validation. -/
theorem construction_validation :
    (∀ s, (mkNetroClientBase s).isSome
        = !(s.toList.all (fun c => c == '/')))
  ∧ (∀ s b, mkNetroClientBase s = some b
      → b = rstripSlash s ∧ ∀ f, endpointUrl b f = rstripSlash s ++ "/" ++ f) := by
  constructor
  · intro s
    by_cases h : rstripSlash s = ""
    · have hall : s.toList.all (fun c => c == '/') = true := by
        rw [List.all_eq_true]
        intro c hc
        exact beq_iff_eq.mpr (rstripSlash_eq_empty_iff s |>.mp h c hc)
      rw [hall]
      simp [mkNetroClientBase, h]
    · have hall : s.toList.all (fun c => c == '/') = false := by
        rw [Bool.eq_false_iff]
        intro hall
        exact h ((rstripSlash_eq_empty_iff s).mpr
          (fun c hc => beq_iff_eq.mp (List.all_eq_true.mp hall c hc)))
      rw [hall]
      simp [mkNetroClientBase, h]
  · intro s b hsb
    unfold mkNetroClientBase at hsb
    by_cases h : rstripSlash s = ""
    · simp [h] at hsb
    · simp [h] at hsb
      exact ⟨hsb.symm, fun f => by rw [hsb]; rfl⟩

/-- Witness for `construction_validation` at the default base URL of
`NetroConfig`, which carries no trailing slash. -/
theorem construction_validation_witness :
    "https://api.netrohome.com/npa/v1" = rstripSlash "https://api.netrohome.com/npa/v1"
      ∧ ∀ f, endpointUrl "https://api.netrohome.com/npa/v1" f
          = rstripSlash "https://api.netrohome.com/npa/v1" ++ "/" ++ f :=
  construction_validation.2 "https://api.netrohome.com/npa/v1"
    "https://api.netrohome.com/npa/v1" rfl
